import Mathlib

/-!
Verification development for the material-web component library.

Part 1 models the NavigationBar / NavigationTab selection and focus
coordination protocol.  The NavigationBar implementation file
(`navigationbar/lib/navigation-bar.ts`) is not part of the source corpus:
only its test suite (`navigation-bar_test.ts`) and test harness
(`navigationbar/harness.ts`) are present, so the bar's behaviour is
modelled from the specification (spec.md sections 2 to 4) and checked
against the behaviours the test suite exercises.

Part 2 embeds the `TextField` element from
`src/chips/action/lib/trailing-foundation.ts` (the concatenated document
containing `textfield/lib/text-field.ts`): `reportValidity`,
`checkValidityAndDispatch`, `reset`, `willUpdate` and `handleInput`.

Part 3 embeds `IconButtonToggle.endPress` from
`src/iconbutton/lib/icon-button-toggle.ts`.
-/

namespace NavBar

/-- Modelled from the spec: NavigationTab state (spec.md section 3; the
`navigationtab` element sources are not in the corpus).  A tab holds
`active`, `hideInactiveLabel` and `label`. -/
structure NavigationTab where
  active : Bool
  hideInactiveLabel : Bool
  label : String
deriving Repr, DecidableEq

/-- Modelled from the spec: NavigationBar state (spec.md section 3).
`activeIndex` is an integer (default 0, may be set out of range),
`hideInactiveLabels` a boolean, `tabs` the ordered child tabs.
`focused` models which tab currently holds keyboard focus (the DOM focus
position used by the keyboard protocol of spec.md section 4.1). -/
structure NavigationBar where
  activeIndex : Int
  hideInactiveLabels : Bool
  tabs : List NavigationTab
  focused : Nat
deriving Repr, DecidableEq

/-- The payload of the `navigation-bar-activated` notification:
`{tab, activeIndex}` (spec.md sections 4.1 and 6). -/
structure ActivatedEvent where
  tab : NavigationTab
  activeIndex : Int
deriving Repr, DecidableEq

/-- One synchronized tab: `active = (index === activeIndex)` and
`hideInactiveLabel = hideInactiveLabels` (spec.md section 4.1 step 3). -/
def syncTab (a : Int) (hl : Bool) (i : Nat) (t : NavigationTab) : NavigationTab :=
  { t with active := ((i : Int) == a), hideInactiveLabel := hl }

/-- Index-threading worker for the synchronization pass. -/
def syncTabs (a : Int) (hl : Bool) : Nat → List NavigationTab → List NavigationTab
  | _, [] => []
  | i, t :: ts => syncTab a hl i t :: syncTabs a hl (i + 1) ts

/-- Modelled from the spec: the synchronization pass (spec.md section 4.1
step 3).  After any change to `activeIndex`, `hideInactiveLabels` or the
child-tab set, the bar writes `active = (index === activeIndex)` and
`hideInactiveLabel = hideInactiveLabels` to every tab, unconditionally
overriding any divergent tab state. -/
def syncPass (s : NavigationBar) : NavigationBar :=
  { s with tabs := syncTabs s.activeIndex s.hideInactiveLabels 0 s.tabs }

/-- The tab at integer index `i`, when in range (JS `this.tabs[i]`). -/
def tabAt (s : NavigationBar) (i : Int) : Option NavigationTab :=
  if 0 ≤ i then s.tabs[i.toNat]? else none

/-- Modelled from the spec: setting `activeIndex` (spec.md section 4.1).
The value is retained as given, never clamped; synchronization always
runs; the `navigation-bar-activated` notification fires only on a value
change that names an existing tab (with zero tabs or an out-of-range
index nothing fires), carrying the activated tab and the new index. -/
def setActiveIndex (s : NavigationBar) (i : Int) : NavigationBar × List ActivatedEvent :=
  let s' := syncPass { s with activeIndex := i }
  if i == s.activeIndex then (s', [])
  else
    match tabAt s' i with
    | some t => (s', [{ tab := t, activeIndex := i }])
    | none => (s', [])

/-- Modelled from the spec: setting `hideInactiveLabels` propagates to
every tab on the next synchronization pass (spec.md section 4.1). -/
def setHideInactiveLabels (s : NavigationBar) (b : Bool) : NavigationBar :=
  syncPass { s with hideInactiveLabels := b }

/-- Modelled from the spec: a change of the child-tab set (slot
mutation) re-derives `tabs` and triggers a synchronization pass
(spec.md section 3, lifecycle). -/
def onTabsChange (s : NavigationBar) (ts : List NavigationTab) : NavigationBar :=
  syncPass { s with tabs := ts }

/-- Focus moves to the next tab, wrapping to the first when at the last
(spec.md section 4.1 step 2). -/
def focusNext (s : NavigationBar) : NavigationBar :=
  { s with focused := if s.focused + 1 < s.tabs.length then s.focused + 1 else 0 }

/-- Focus moves to the previous tab, wrapping to the last when at the
first (spec.md section 4.1 step 2). -/
def focusPrev (s : NavigationBar) : NavigationBar :=
  { s with focused := if s.focused = 0 then s.tabs.length - 1 else s.focused - 1 }

/-- Keys the delegated keydown handler reacts to. -/
inductive Key where
  | home
  | endKey
  | arrowLeft
  | arrowRight
  | enter
  | spacebar
  | other
deriving Repr, DecidableEq

/-- Modelled from the spec: the delegated keydown handler (spec.md
section 4.1 step 2).  `Home` focuses the first tab, `End` the last;
the arrow keys move focus with wrap-around and their semantics are
exchanged when the effective layout direction, read at the time of the
key event, is right-to-left; `Enter` and `Spacebar` activate the
currently focused tab.  Focus movement alone never touches
`activeIndex`. -/
def handleKeydown (s : NavigationBar) (k : Key) (isRtl : Bool) :
    NavigationBar × List ActivatedEvent :=
  match k with
  | .home => ({ s with focused := 0 }, [])
  | .endKey => ({ s with focused := s.tabs.length - 1 }, [])
  | .arrowRight => if isRtl then (focusPrev s, []) else (focusNext s, [])
  | .arrowLeft => if isRtl then (focusNext s, []) else (focusPrev s, [])
  | .enter =>
    if s.focused < s.tabs.length then setActiveIndex s s.focused else (s, [])
  | .spacebar =>
    if s.focused < s.tabs.length then setActiveIndex s s.focused else (s, [])
  | .other => (s, [])

/-- Modelled from the spec: pointer activation (spec.md section 4.1
step 1).  A tab's interaction signal names itself; the bar looks up its
position `i` in `tabs` and assigns it to `activeIndex`. -/
def handleNavigationTabInteraction (s : NavigationBar) (i : Nat) :
    NavigationBar × List ActivatedEvent :=
  setActiveIndex s i

/-- The `active` flag of the tab at position `j` (false when out of
range). -/
def tabActiveAt (s : NavigationBar) (j : Nat) : Bool :=
  match s.tabs[j]? with
  | some t => t.active
  | none => false

/-- The `hideInactiveLabel` flag of the tab at position `j` (false when
out of range). -/
def tabHideAt (s : NavigationBar) (j : Nat) : Bool :=
  match s.tabs[j]? with
  | some t => t.hideInactiveLabel
  | none => false

theorem syncTabs_length (a : Int) (hl : Bool) (i : Nat) (ts : List NavigationTab) :
    (syncTabs a hl i ts).length = ts.length := by
  induction ts generalizing i with
  | nil => rfl
  | cons t ts ih => simp [syncTabs, ih]

theorem syncTabs_getElem? (a : Int) (hl : Bool) (ts : List NavigationTab) :
    ∀ i j : Nat, (syncTabs a hl i ts)[j]? =
      (ts[j]?).map fun t => syncTab a hl (i + j) t := by
  induction ts with
  | nil => intro i j; simp [syncTabs]
  | cons t ts ih =>
    intro i j
    cases j with
    | zero => simp [syncTabs]
    | succ j =>
      have h1 : i + (j + 1) = (i + 1) + j := by omega
      simp [syncTabs, ih (i + 1) j, h1]

theorem syncPass_tabs_length (s : NavigationBar) :
    (syncPass s).tabs.length = s.tabs.length := by
  simp [syncPass, syncTabs_length]

theorem syncPass_activeIndex (s : NavigationBar) :
    (syncPass s).activeIndex = s.activeIndex := rfl

theorem syncPass_hide (s : NavigationBar) :
    (syncPass s).hideInactiveLabels = s.hideInactiveLabels := rfl

theorem tabActiveAt_syncPass (s : NavigationBar) (j : Nat) (hj : j < s.tabs.length) :
    tabActiveAt (syncPass s) j = ((j : Int) == s.activeIndex) := by
  cases hget : s.tabs[j]? with
  | none => simp [List.getElem?_eq_getElem hj] at hget
  | some t =>
    simp [tabActiveAt, syncPass, syncTabs_getElem? s.activeIndex s.hideInactiveLabels s.tabs 0 j,
      hget, syncTab]

theorem tabHideAt_syncPass (s : NavigationBar) (j : Nat) (hj : j < s.tabs.length) :
    tabHideAt (syncPass s) j = s.hideInactiveLabels := by
  cases hget : s.tabs[j]? with
  | none => simp [List.getElem?_eq_getElem hj] at hget
  | some t =>
    simp [tabHideAt, syncPass, syncTabs_getElem? s.activeIndex s.hideInactiveLabels s.tabs 0 j,
      hget, syncTab]

theorem setActiveIndex_fst (s : NavigationBar) (i : Int) :
    (setActiveIndex s i).1 = syncPass { s with activeIndex := i } := by
  unfold setActiveIndex
  dsimp only
  split
  · rfl
  · split <;> rfl

theorem tabAt_syncPass_nat (s : NavigationBar) (i : Nat) (h : i < s.tabs.length) :
    ∃ t : NavigationTab, tabAt (syncPass s) (i : Int) = some t ∧
      t.active = ((i : Int) == s.activeIndex) ∧
      t.hideInactiveLabel = s.hideInactiveLabels := by
  cases hget : s.tabs[i]? with
  | none => simp [List.getElem?_eq_getElem h] at hget
  | some t =>
    refine ⟨syncTab s.activeIndex s.hideInactiveLabels i t, ?_, rfl, rfl⟩
    simp [tabAt, syncPass, syncTabs_getElem? s.activeIndex s.hideInactiveLabels s.tabs 0 i, hget]

/-- The reconciliation invariant of spec.md section 3: a tab is active
exactly when its index equals the bar's `activeIndex`. -/
def activeOk (s : NavigationBar) : Prop :=
  ∀ j : Nat, j < s.tabs.length → (tabActiveAt s j = true ↔ (j : Int) = s.activeIndex)

theorem activeOk_syncPass (s : NavigationBar) : activeOk (syncPass s) := by
  intro j hj
  rw [syncPass_tabs_length] at hj
  rw [tabActiveAt_syncPass s j hj, syncPass_activeIndex]
  exact beq_iff_eq

theorem activeOk_congr {s s' : NavigationBar} (ht : s'.tabs = s.tabs)
    (ha : s'.activeIndex = s.activeIndex) (h : activeOk s) : activeOk s' := by
  intro j hj
  rw [ht] at hj
  have hs := h j hj
  unfold tabActiveAt at hs ⊢
  rw [ht, ha]
  exact hs

theorem activeOk_handleKeydown {s : NavigationBar} (h : activeOk s) (k : Key) (r : Bool) :
    activeOk (handleKeydown s k r).1 := by
  cases k with
  | home => exact activeOk_congr rfl rfl h
  | endKey => exact activeOk_congr rfl rfl h
  | arrowRight =>
    cases r
    · exact activeOk_congr rfl rfl h
    · exact activeOk_congr rfl rfl h
  | arrowLeft =>
    cases r
    · exact activeOk_congr rfl rfl h
    · exact activeOk_congr rfl rfl h
  | enter =>
    rcases Nat.lt_or_ge s.focused s.tabs.length with hf | hf
    · have he : handleKeydown s .enter r = setActiveIndex s s.focused := by
        simp [handleKeydown, hf]
      rw [he, setActiveIndex_fst]
      exact activeOk_syncPass _
    · have he : handleKeydown s .enter r = (s, []) := by
        simp [handleKeydown, Nat.not_lt.mpr hf]
      rw [he]
      exact h
  | spacebar =>
    rcases Nat.lt_or_ge s.focused s.tabs.length with hf | hf
    · have he : handleKeydown s .spacebar r = setActiveIndex s s.focused := by
        simp [handleKeydown, hf]
      rw [he, setActiveIndex_fst]
      exact activeOk_syncPass _
    · have he : handleKeydown s .spacebar r = (s, []) := by
        simp [handleKeydown, Nat.not_lt.mpr hf]
      rw [he]
      exact h
  | other => exact h

/-- States reachable by NavigationBar operations after the first update
cycle has run a synchronization pass (spec.md sections 4.1 and 5). -/
inductive Reachable : NavigationBar → Prop where
  | firstUpdate (s : NavigationBar) : Reachable (syncPass s)
  | activeIndexSet {s : NavigationBar} (hs : Reachable s) (i : Int) :
      Reachable (setActiveIndex s i).1
  | hideLabelsSet {s : NavigationBar} (hs : Reachable s) (b : Bool) :
      Reachable (setHideInactiveLabels s b)
  | tabsChanged {s : NavigationBar} (hs : Reachable s) (ts : List NavigationTab) :
      Reachable (onTabsChange s ts)
  | keydown {s : NavigationBar} (hs : Reachable s) (k : Key) (r : Bool) :
      Reachable (handleKeydown s k r).1
  | tabInteraction {s : NavigationBar} (hs : Reachable s) (i : Nat) :
      Reachable (handleNavigationTabInteraction s i).1

theorem reachable_activeOk {s : NavigationBar} (h : Reachable s) : activeOk s := by
  induction h with
  | firstUpdate s => exact activeOk_syncPass s
  | activeIndexSet hs i ih =>
    rw [setActiveIndex_fst]
    exact activeOk_syncPass _
  | hideLabelsSet hs b ih => exact activeOk_syncPass _
  | tabsChanged hs ts ih => exact activeOk_syncPass _
  | keydown hs k r ih => exact activeOk_handleKeydown ih k r
  | tabInteraction hs i ih =>
    rw [handleNavigationTabInteraction, setActiveIndex_fst]
    exact activeOk_syncPass _

/-- Two markup tabs used by the test fixtures: labels One and Two, no
flags set. -/
def twoTabs : List NavigationTab :=
  [⟨false, false, "One"⟩, ⟨false, false, "Two"⟩]

/-- A two-tab bar with `activeIndex = 0` (the keyboard test fixture). -/
def sampleBar : NavigationBar :=
  ⟨0, false, twoTabs, 0⟩

/-- The out-of-sync markup of `navBarWithIncorrectTabsElement`: the bar
has `activeIndex = 0` and `hideInactiveLabels = false`, but tab 0 is
marked `hideInactiveLabel` and tab 1 is marked `active` in source. -/
def incorrectTabs : List NavigationTab :=
  [⟨false, true, "One"⟩, ⟨true, false, "One"⟩]

/-- The incorrect-markup bar after its first update cycle. -/
def incorrectBarSynced : NavigationBar :=
  syncPass ⟨0, false, incorrectTabs, 0⟩

/-- C1: for every NavigationBar with tab list `tabs` and every index `i`
with `0 <= i < tabs.length`, after setting `activeIndex = i` and
completing the synchronization pass, `tabs[i].active` is true and every
other tab's `active` is false. -/
theorem setActiveIndex_activates_unique {s : NavigationBar} {i : Nat}
    (h : i < s.tabs.length) :
    tabActiveAt (setActiveIndex s (i : Int)).1 i = true ∧
    ∀ j : Nat, j < s.tabs.length → j ≠ i →
      tabActiveAt (setActiveIndex s (i : Int)).1 j = false := by
  constructor
  · rw [setActiveIndex_fst,
      tabActiveAt_syncPass { s with activeIndex := (i : Int) } i h]
    simp
  · intro j hj hne
    rw [setActiveIndex_fst,
      tabActiveAt_syncPass { s with activeIndex := (i : Int) } j hj]
    simpa using fun hc => hne (by exact_mod_cast hc)

/-- Witness for C1 at the two-tab fixture with `i = 0`. -/
theorem setActiveIndex_activates_unique_witness :
    tabActiveAt (setActiveIndex sampleBar (0 : Int)).1 0 = true :=
  (setActiveIndex_activates_unique (s := sampleBar) (i := 0) (by decide)).1

/-- C2: in every state reachable by NavigationBar operations after a
synchronization pass, at most one tab has `active = true`, that tab is
`tabs[activeIndex]` whenever `activeIndex` is within bounds, and all
other tabs are inactive. -/
theorem reachable_active_invariant {s : NavigationBar} (h : Reachable s) :
    (∀ j k : Nat, j < s.tabs.length → k < s.tabs.length →
      tabActiveAt s j = true → tabActiveAt s k = true → j = k) ∧
    (∀ j : Nat, j < s.tabs.length →
      (tabActiveAt s j = true ↔ (j : Int) = s.activeIndex)) := by
  have ha := reachable_activeOk h
  refine ⟨?_, ha⟩
  intro j k hj hk hje hke
  have h1 := (ha j hj).mp hje
  have h2 := (ha k hk).mp hke
  omega

/-- Witness for C2 at the synced two-tab fixture. -/
theorem reachable_active_invariant_witness :
    tabActiveAt (syncPass sampleBar) 0 = true :=
  ((reachable_active_invariant (Reachable.firstUpdate sampleBar)).2 0
    (by decide)).mpr (by decide)

/-- C3: after any change to `activeIndex`, `hideInactiveLabels` or the
child-tab set, the synchronization pass writes
`active = (index === activeIndex)` and
`hideInactiveLabel = hideInactiveLabels` to every tab, unconditionally
overwriting divergent tab state; in particular, for a bar with
`activeIndex = 0` whose markup marks tab 1 active, after the first
update cycle tab 0 is active and tab 1 is not, and every tab's
`hideInactiveLabel` equals the bar's `hideInactiveLabels`. -/
theorem sync_overwrites_tabs :
    (∀ (s : NavigationBar) (i : Int) (j : Nat), j < s.tabs.length →
      tabActiveAt (setActiveIndex s i).1 j = ((j : Int) == i) ∧
      tabHideAt (setActiveIndex s i).1 j = s.hideInactiveLabels) ∧
    (∀ (s : NavigationBar) (b : Bool) (j : Nat), j < s.tabs.length →
      tabActiveAt (setHideInactiveLabels s b) j = ((j : Int) == s.activeIndex) ∧
      tabHideAt (setHideInactiveLabels s b) j = b) ∧
    (∀ (s : NavigationBar) (ts : List NavigationTab) (j : Nat), j < ts.length →
      tabActiveAt (onTabsChange s ts) j = ((j : Int) == s.activeIndex) ∧
      tabHideAt (onTabsChange s ts) j = s.hideInactiveLabels) ∧
    (tabActiveAt incorrectBarSynced 0 = true ∧
     tabActiveAt incorrectBarSynced 1 = false ∧
     tabHideAt incorrectBarSynced 0 = false ∧
     tabHideAt incorrectBarSynced 1 = false) := by
  refine ⟨?_, ?_, ?_, by decide⟩
  · intro s i j hj
    rw [setActiveIndex_fst, tabActiveAt_syncPass { s with activeIndex := i } j hj,
      tabHideAt_syncPass { s with activeIndex := i } j hj]
    exact ⟨rfl, rfl⟩
  · intro s b j hj
    unfold setHideInactiveLabels
    rw [tabActiveAt_syncPass { s with hideInactiveLabels := b } j hj,
      tabHideAt_syncPass { s with hideInactiveLabels := b } j hj]
    exact ⟨rfl, rfl⟩
  · intro s ts j hj
    unfold onTabsChange
    rw [tabActiveAt_syncPass { s with tabs := ts } j hj,
      tabHideAt_syncPass { s with tabs := ts } j hj]
    exact ⟨rfl, rfl⟩

/-- Witness for C3 at the two-tab fixture. -/
theorem sync_overwrites_tabs_witness :
    tabActiveAt (setActiveIndex sampleBar (1 : Int)).1 0 = ((0 : Int) == (1 : Int)) :=
  (sync_overwrites_tabs.1 sampleBar 1 0 (by decide)).1

/-- C4: every successful activation (setting `activeIndex` to a new
in-range value) emits exactly one `navigation-bar-activated`
notification whose detail carries the activated tab and the new
`activeIndex`; pressing ArrowRight then Enter on a two-tab bar with
`activeIndex = 0` yields `activeIndex = 1` and an event with
`detail.activeIndex = 1`. -/
theorem activation_emits_single_event :
    (∀ (s : NavigationBar) (i : Nat), i < s.tabs.length →
      (i : Int) ≠ s.activeIndex →
      ∃ t : NavigationTab,
        (setActiveIndex s (i : Int)).2 = [{ tab := t, activeIndex := (i : Int) }] ∧
        tabAt (setActiveIndex s (i : Int)).1 (i : Int) = some t ∧
        t.active = true) ∧
    ((handleKeydown (handleKeydown (syncPass sampleBar) .arrowRight false).1
        .enter false).1.activeIndex = 1 ∧
     ((handleKeydown (handleKeydown (syncPass sampleBar) .arrowRight false).1
        .enter false).2.map ActivatedEvent.activeIndex) = [1]) := by
  refine ⟨?_, by decide⟩
  intro s i hi hne
  obtain ⟨t, hat, hact, _⟩ :=
    tabAt_syncPass_nat { s with activeIndex := (i : Int) } i hi
  refine ⟨t, ?_, ?_, ?_⟩
  · unfold setActiveIndex
    dsimp only
    rw [if_neg (by simpa using hne), hat]
  · rw [setActiveIndex_fst]
    exact hat
  · simpa using hact

/-- Witness for C4: activating index 1 on the two-tab fixture. -/
theorem activation_emits_single_event_witness :
    ∃ t : NavigationTab,
      (setActiveIndex sampleBar ((1 : Nat) : Int)).2 =
        [{ tab := t, activeIndex := ((1 : Nat) : Int) }] ∧
      tabAt (setActiveIndex sampleBar ((1 : Nat) : Int)).1 ((1 : Nat) : Int) = some t ∧
      t.active = true :=
  activation_emits_single_event.1 sampleBar 1 (by decide) (by decide)

/-- C5: focus-movement keys (Home, End, ArrowLeft, ArrowRight) never
change `activeIndex` and emit no notification; `activeIndex` changes
only by explicit activation — Enter/Spacebar on the focused tab or a
pointer interaction on a tab — which sets it to that tab's position
regardless of which tab is currently active. -/
theorem focus_never_changes_activeIndex :
    (∀ (s : NavigationBar) (r : Bool) (k : Key),
      (k = .home ∨ k = .endKey ∨ k = .arrowLeft ∨ k = .arrowRight) →
      (handleKeydown s k r).1.activeIndex = s.activeIndex ∧
      (handleKeydown s k r).2 = []) ∧
    (∀ (s : NavigationBar) (r : Bool), s.focused < s.tabs.length →
      (handleKeydown s .enter r).1.activeIndex = (s.focused : Int) ∧
      (handleKeydown s .spacebar r).1.activeIndex = (s.focused : Int)) ∧
    (∀ (s : NavigationBar) (i : Nat),
      (handleNavigationTabInteraction s i).1.activeIndex = (i : Int)) := by
  refine ⟨?_, ?_, ?_⟩
  · intro s r k hk
    rcases hk with h | h | h | h <;> subst h <;> cases r <;>
      simp [handleKeydown, focusNext, focusPrev]
  · intro s r hf
    constructor
    · have he : handleKeydown s .enter r = setActiveIndex s s.focused := by
        simp [handleKeydown, hf]
      rw [he, setActiveIndex_fst, syncPass_activeIndex]
    · have he : handleKeydown s .spacebar r = setActiveIndex s s.focused := by
        simp [handleKeydown, hf]
      rw [he, setActiveIndex_fst, syncPass_activeIndex]
  · intro s i
    rw [handleNavigationTabInteraction, setActiveIndex_fst, syncPass_activeIndex]

/-- Witness for C5: Home on the two-tab fixture with `activeIndex = 0`
and focus on tab 1 leaves `activeIndex` unchanged. -/
theorem focus_never_changes_activeIndex_witness :
    (handleKeydown ⟨0, false, twoTabs, 1⟩ .home false).1.activeIndex =
      (⟨0, false, twoTabs, 1⟩ : NavigationBar).activeIndex ∧
    (handleKeydown ⟨0, false, twoTabs, 1⟩ .home false).2 = [] :=
  focus_never_changes_activeIndex.1 ⟨0, false, twoTabs, 1⟩ false .home (Or.inl rfl)

/-- C6: ArrowRight moves focus to the next tab wrapping to the first at
the last, ArrowLeft moves focus to the previous tab wrapping to the last
at the first, and when the layout direction read at the time of the key
event is right-to-left the two arrow keys' semantics are exchanged. -/
theorem arrow_keys_move_focus_with_wrap :
    (∀ s : NavigationBar, s.focused < s.tabs.length →
      (handleKeydown s .arrowRight false).1.focused =
        (if s.focused = s.tabs.length - 1 then 0 else s.focused + 1) ∧
      (handleKeydown s .arrowLeft false).1.focused =
        (if s.focused = 0 then s.tabs.length - 1 else s.focused - 1)) ∧
    (∀ (s : NavigationBar),
      handleKeydown s .arrowRight true = handleKeydown s .arrowLeft false ∧
      handleKeydown s .arrowLeft true = handleKeydown s .arrowRight false) := by
  refine ⟨?_, fun s => ⟨rfl, rfl⟩⟩
  intro s hf
  constructor
  · show (if s.focused + 1 < s.tabs.length then s.focused + 1 else 0) = _
    split <;> split <;> omega
  · rfl

/-- Witness for C6: ArrowRight from the last tab of the two-tab fixture
wraps focus to the first tab. -/
theorem arrow_keys_move_focus_with_wrap_witness :
    (handleKeydown ⟨0, false, twoTabs, 1⟩ .arrowRight false).1.focused =
      (if (⟨0, false, twoTabs, 1⟩ : NavigationBar).focused =
          (⟨0, false, twoTabs, 1⟩ : NavigationBar).tabs.length - 1 then 0
       else (⟨0, false, twoTabs, 1⟩ : NavigationBar).focused + 1) :=
  (arrow_keys_move_focus_with_wrap.1 ⟨0, false, twoTabs, 1⟩ (by decide)).1

/-- C7: setting `activeIndex` to a value outside `[0, tabs.length)`
retains that value unchanged (no clamping), results in every tab having
`active = false`, raises no failure (the operation is total), and fires
no notification; with zero tabs, setting `activeIndex` activates no tab
and fires no `navigation-bar-activated` notification. -/
theorem out_of_range_activeIndex_inert :
    (∀ (s : NavigationBar) (i : Int), ¬(0 ≤ i ∧ i < (s.tabs.length : Int)) →
      (setActiveIndex s i).1.activeIndex = i ∧
      (∀ j : Nat, j < s.tabs.length → tabActiveAt (setActiveIndex s i).1 j = false) ∧
      (setActiveIndex s i).2 = []) ∧
    (∀ (s : NavigationBar) (i : Int), s.tabs = [] →
      (setActiveIndex s i).1.tabs = [] ∧ (setActiveIndex s i).2 = []) := by
  constructor
  · intro s i hout
    refine ⟨?_, ?_, ?_⟩
    · rw [setActiveIndex_fst, syncPass_activeIndex]
    · intro j hj
      rw [setActiveIndex_fst, tabActiveAt_syncPass { s with activeIndex := i } j hj]
      simp only [beq_eq_false_iff_ne, ne_eq]
      omega
    · unfold setActiveIndex
      dsimp only
      split
      · rfl
      · have hnone : tabAt (syncPass { s with activeIndex := i }) i = none := by
          unfold tabAt
          split
          · apply List.getElem?_eq_none
            rw [syncPass_tabs_length]
            show s.tabs.length ≤ i.toNat
            omega
          · rfl
        rw [hnone]
  · intro s i hempty
    have htabs : (setActiveIndex s i).1.tabs = [] := by
      rw [setActiveIndex_fst]
      show syncTabs i s.hideInactiveLabels 0 s.tabs = []
      rw [hempty]
      rfl
    refine ⟨htabs, ?_⟩
    unfold setActiveIndex
    dsimp only
    split
    · rfl
    · have hnone : tabAt (syncPass { s with activeIndex := i }) i = none := by
        unfold tabAt
        split
        · apply List.getElem?_eq_none
          rw [syncPass_tabs_length]
          show s.tabs.length ≤ i.toNat
          rw [hempty]
          exact Nat.zero_le _
        · rfl
      rw [hnone]

/-- Witness for C7: setting `activeIndex = 5` on the two-tab fixture. -/
theorem out_of_range_activeIndex_inert_witness :
    (setActiveIndex sampleBar (5 : Int)).1.activeIndex = (5 : Int) ∧
    (∀ j : Nat, j < sampleBar.tabs.length →
      tabActiveAt (setActiveIndex sampleBar (5 : Int)).1 j = false) ∧
    (setActiveIndex sampleBar (5 : Int)).2 = [] :=
  out_of_range_activeIndex_inert.1 sampleBar 5 (by decide)

end NavBar

namespace TextField

/-!
Embedding of the `TextField` element
(`src/chips/action/lib/trailing-foundation.ts`, second document,
`textfield/lib/text-field.ts`).  The reactive-element properties the
claims touch are `error`, `errorText`, `value`, `defaultValue` and the
internal `dirty` flag; the native `<input>` behind the component is an
environment supplying `checkValidity()` and `validationMessage`, and
the outcome of dispatching the cancelable `invalid` event is whether
some listener called `preventDefault()`. -/

/-- The TextField reactive properties the validity and value logic
reads and writes. -/
structure State where
  error : Bool
  errorText : String
  value : String
  defaultValue : String
  dirty : Bool
deriving Repr, DecidableEq

/-- The native input environment: the result of
`this.getInput().checkValidity()`, the native `validationMessage`, and
whether an `invalid`-event listener calls `preventDefault()` (so that
`dispatchEvent` returns false). -/
structure InputEnv where
  inputValid : Bool
  validationMessage : String
  listenerCancels : Bool
deriving Repr, DecidableEq

/-- The observable outcome of `checkValidityAndDispatch`: the returned
`{valid, canceled}` pair plus whether a cancelable `invalid` event was
dispatched. -/
structure DispatchOutcome where
  valid : Bool
  canceled : Bool
  dispatchedInvalid : Bool
deriving Repr, DecidableEq

/-- `checkValidityAndDispatch` (trailing-foundation.ts lines 566-574):
`valid` is the native check; only when invalid is a cancelable
`invalid` event dispatched, and `canceled` records whether
`dispatchEvent` returned false. -/
def checkValidityAndDispatch (env : InputEnv) : DispatchOutcome :=
  let valid := env.inputValid
  if valid then
    { valid := valid, canceled := false, dispatchedInvalid := false }
  else
    { valid := valid, canceled := env.listenerCancels, dispatchedInvalid := true }

/-- `reportValidity` (trailing-foundation.ts lines 317-325): runs
`checkValidityAndDispatch`; unless the event was canceled, sets
`error := !valid` and `errorText := validationMessage`; returns
`valid`.  The result records the new state, the returned boolean and
the dispatch outcome. -/
def reportValidity (s : State) (env : InputEnv) : State × Bool × DispatchOutcome :=
  let r := checkValidityAndDispatch env
  let s' :=
    if r.canceled then s
    else { s with error := !r.valid, errorText := env.validationMessage }
  (s', r.valid, r)

/-- `reset` (trailing-foundation.ts lines 386-389): clears `dirty` and
restores `value` from `defaultValue`. -/
def reset (s : State) : State :=
  { s with dirty := false, value := s.defaultValue }

/-- `willUpdate` (trailing-foundation.ts lines 525-533): when `value`
was not explicitly changed this cycle and no user input has occurred,
`value = value || defaultValue` (JS string truthiness: the empty string
is falsy). -/
def willUpdate (valueChanged : Bool) (s : State) : State :=
  if !valueChanged && !s.dirty then
    { s with value := if s.value = "" then s.defaultValue else s.value }
  else s

/-- `handleInput` (trailing-foundation.ts lines 535-539): marks the
field dirty and takes the input element's value. -/
def handleInput (s : State) (v : String) : State :=
  { s with dirty := true, value := v }

/-- Setting the `defaultValue` property (a plain reactive property
write; no setter logic). -/
def setDefaultValue (s : State) (d : String) : State :=
  { s with defaultValue := d }

/-- C8: `reportValidity()` returns the native input's validity; when
the input is invalid it dispatches a cancelable `invalid` event, and it
updates `error` to `!valid` and `errorText` to `validationMessage` if
and only if that event was not canceled — when a listener cancels the
event, `reportValidity()` still returns false but `error` and
`errorText` are left unchanged. -/
theorem reportValidity_spec (s : State) (env : InputEnv) :
    ((reportValidity s env).2.1 = env.inputValid) ∧
    ((reportValidity s env).2.2.dispatchedInvalid = !env.inputValid) ∧
    (¬(reportValidity s env).2.2.canceled = true →
      (reportValidity s env).1.error = !env.inputValid ∧
      (reportValidity s env).1.errorText = env.validationMessage) ∧
    ((reportValidity s env).2.2.canceled = true →
      (reportValidity s env).2.1 = false ∧ (reportValidity s env).1 = s) := by
  cases hv : env.inputValid <;>
    cases hc : env.listenerCancels <;>
      simp [reportValidity, checkValidityAndDispatch, hv, hc]

/-- Witness for C8: an invalid input whose listener cancels the
`invalid` event leaves a concrete state untouched while still
reporting false. -/
theorem reportValidity_spec_witness :
    (reportValidity ⟨false, "", "", "", false⟩ ⟨false, "msg", true⟩).2.1 = false ∧
    (reportValidity ⟨false, "", "", "", false⟩ ⟨false, "msg", true⟩).1 =
      ⟨false, "", "", "", false⟩ :=
  (reportValidity_spec ⟨false, "", "", "", false⟩ ⟨false, "msg", true⟩).2.2.2
    (by decide)

/-- C10: `reset()` sets `dirty` to false and `value` to `defaultValue`;
on any update cycle in which `value` was not explicitly changed and
`dirty` is false, an empty-string `value` is replaced by
`defaultValue` (and a non-empty one is kept), so changing
`defaultValue` before user input updates `value`, while after
`handleInput` has set `dirty`, changing `defaultValue` never changes
`value`. -/
theorem reset_and_defaultValue_spec :
    (∀ s : State, (reset s).dirty = false ∧ (reset s).value = s.defaultValue) ∧
    (∀ s : State, s.dirty = false → s.value = "" →
      (willUpdate false s).value = s.defaultValue) ∧
    (∀ s : State, s.dirty = false → s.value ≠ "" →
      (willUpdate false s).value = s.value) ∧
    (∀ (s : State) (d : String), s.dirty = false → s.value = "" →
      (willUpdate false (setDefaultValue s d)).value = d) ∧
    (∀ (s : State) (c : Bool), s.dirty = true → (willUpdate c s).value = s.value) ∧
    (∀ (s : State) (v d : String) (c : Bool),
      (willUpdate c (setDefaultValue (handleInput s v) d)).value = v) := by
  refine ⟨fun s => ⟨rfl, rfl⟩, ?_, ?_, ?_, ?_, ?_⟩
  · intro s hd hv
    simp [willUpdate, hd, hv]
  · intro s hd hv
    simp [willUpdate, hd, hv]
  · intro s d hd hv
    simp [willUpdate, setDefaultValue, hd, hv]
  · intro s c hd
    cases c <;> simp [willUpdate, hd]
  · intro s v d c
    cases c <;> simp [willUpdate, setDefaultValue, handleInput]

/-- Witness for C10 at a concrete fresh field. -/
theorem reset_and_defaultValue_spec_witness :
    (willUpdate false (setDefaultValue ⟨false, "", "", "", false⟩ "Default")).value =
      "Default" :=
  reset_and_defaultValue_spec.2.2.2.1 ⟨false, "", "", "", false⟩ "Default" rfl rfl

end TextField

namespace IconToggle

/-!
Embedding of `IconButtonToggle.endPress`
(`src/iconbutton/lib/icon-button-toggle.ts`, lines 45-55).  The ripple
call is a visual effect outside the state model; the observable state
is the `isOn` property and the dispatched
`icon-button-toggle-change` CustomEvent. -/

/-- The `icon-button-toggle-change` CustomEvent: its `detail.isOn`
payload and the `bubbles` / `composed` dispatch options. -/
structure ToggleChangeEvent where
  isOn : Bool
  bubbles : Bool
  composed : Bool
deriving Repr, DecidableEq

/-- `endPress({cancelled})`: when cancelled, returns early; otherwise
negates `isOn` and dispatches `icon-button-toggle-change` with
`detail = {isOn}` and `{bubbles: true, composed: true}`.  Returns the
new `isOn` and the list of dispatched events. -/
def endPress (isOn : Bool) (cancelled : Bool) : Bool × List ToggleChangeEvent :=
  if cancelled then (isOn, [])
  else (!isOn, [{ isOn := !isOn, bubbles := true, composed := true }])

/-- C9: `endPress` with `cancelled = true` leaves `isOn` unchanged and
dispatches no event; with `cancelled = false` it negates `isOn` and
dispatches exactly one bubbling composed `icon-button-toggle-change`
event whose `detail.isOn` equals the new (post-toggle) value of
`isOn`. -/
theorem endPress_spec (isOn : Bool) :
    ((endPress isOn true).1 = isOn ∧ (endPress isOn true).2 = []) ∧
    ((endPress isOn false).1 = !isOn ∧
      (endPress isOn false).2 =
        [{ isOn := (endPress isOn false).1, bubbles := true, composed := true }]) := by
  cases isOn <;> simp [endPress]

end IconToggle
